import Mathlib

/-!
# Verification of the finance-bot core (shallow embedding)

This file embeds the core of the Telegram finance bot — the transaction
entry / payment conversation flows (`bot.py`), the persistence gateway
(`database.py`) and the notification jobs (`notifications.py`) — as
executable Lean definitions, and proves/refutes the specified properties.

Modelling conventions:
* Python `datetime.date` is modelled by `FinBot.Date` (a day ordinal,
  `daysFromCivil` converting a calendar y/m/d triple to the ordinal, as
  `date.toordinal` does up to a constant offset); `datetime.datetime` is
  modelled by `FinBot.DateTime` (day ordinal + seconds within the day).
  Crucially the two are *distinct types*, because the Python semantics of
  mixed `date`/`datetime` comparison and subtraction is what several
  properties hinge on.
* Python `float` values are modelled by `FinBot.PyFloat`
  (`finite (q : ℚ) | inf sign | nan`).  Finite values are exact rationals:
  no verified property depends on IEEE-754 rounding (the properties below
  only compare results of parsing the *same* string, or use amounts such
  as 1000.00 that are exactly representable either way).
* The Mongo store is a list of user records and a list of transaction
  records; `insert_one` appends and assigns the next id (ObjectId strings
  are modelled as `Nat` ids; an unparseable ObjectId string behaves like a
  nonexistent id, both yielding the `false` result).
* The conversation handlers of `bot.py` are embedded one Lean function per
  Python handler, glued by `convStep`, the dispatch table that
  `create_application` builds (text states accept plain-text messages, the
  installment-choice state accepts callback queries, `/cancel` is a
  fallback in every state).
-/

namespace FinBot

/-! ## Dates and datetimes -/

/-- A Python `datetime.date`, represented by its day ordinal
(proleptic-Gregorian day count; `daysFromCivil` below maps calendar
triples into it).  `timedelta(days = n)` addition is ordinal addition and
date subtraction is ordinal subtraction. -/
structure Date where
  ord : Int
deriving DecidableEq, Repr

/-- A Python `datetime.datetime`: a day ordinal plus seconds within the
day.  `datetime.combine(d, time.min)` gives seconds = 0. -/
structure DateTime where
  dateOrd : Int
  secs : Nat
deriving DecidableEq, Repr

/-- Day count of a civil calendar date (Hinnant's `days_from_civil`,
floor-division form; 1970-01-01 ↦ 0).  Only injectivity/monotonicity on
valid dates matter to the embedding. -/
def daysFromCivil (y : Int) (m d : Nat) : Int :=
  let y' : Int := if m ≤ 2 then y - 1 else y
  let era : Int := Int.fdiv y' 400
  let yoe : Int := y' - era * 400
  let mp : Nat := (m + 9) % 12
  let doy : Int := ((153 * mp + 2) / 5 : Nat) + (d : Int) - 1
  let doe : Int := yoe * 365 + Int.fdiv yoe 4 - Int.fdiv yoe 100 + doy
  era * 146097 + doe - 719468

/-- Build a `Date` from a calendar triple. -/
def mkDate (y : Int) (m d : Nat) : Date := ⟨daysFromCivil y m d⟩

/-- `date + timedelta(days = n)`. -/
def Date.addDays (dt : Date) (n : Int) : Date := ⟨dt.ord + n⟩

/-- `datetime.combine(d, datetime.min.time())`: midnight of the day. -/
def DateTime.combine (d : Date) : DateTime := ⟨d.ord, 0⟩

/-- `datetime ≤ datetime` (lexicographic on day, then time of day). -/
def DateTime.le (a b : DateTime) : Bool :=
  a.dateOrd < b.dateOrd || (a.dateOrd == b.dateOrd && a.secs ≤ b.secs)

/-- `datetime < datetime`. -/
def DateTime.lt (a b : DateTime) : Bool :=
  a.dateOrd < b.dateOrd || (a.dateOrd == b.dateOrd && a.secs < b.secs)

/-- Python `datetime == date` comparison.  In CPython a `datetime` never
compares equal to a plain `date` (equality between a `date` and a
`datetime` instance is `False` regardless of the calendar day — checked
against CPython: `date(2024,1,1) == datetime(2024,1,1)` is `False`).
`send_daily_summary` performs exactly this comparison
(`t.get('due_date') == today`, notifications.py line 162). -/
def pyEq_datetime_date (_dt : DateTime) (_d : Date) : Bool := false

/-- Python `datetime - date` subtraction.  In CPython subtracting a plain
`date` from a `datetime` raises `TypeError` ("unsupported operand
type(s)"), there is no pair of operands for which it yields a value; we
model the raise as `none`.  `check_due_transactions` performs exactly this
subtraction (`(due_date - today).days`, notifications.py line 71). -/
def pySub_datetime_date (_dt : DateTime) (_d : Date) : Option Int := none

/-! ## Python string / number parsing primitives -/

/-- Is an ASCII whitespace character (Python `str.strip` / `float` /
`int` strip surrounding whitespace; only ASCII whitespace is relevant to
the inputs considered here). -/
def isWs (c : Char) : Bool := c = ' ' || c = '\t' || c = '\n' || c = '\r'

/-- Strip leading and trailing whitespace from a character list. -/
def stripWs (cs : List Char) : List Char :=
  ((cs.dropWhile isWs).reverse.dropWhile isWs).reverse

/-- Numeric value of a digit list (most significant first). -/
def digitsToNat (cs : List Char) : Nat :=
  cs.foldl (fun a c => 10 * a + (c.toNat - '0'.toNat)) 0

/-- Rational addition by cross-multiplication through `Rat.divInt`
(extensionally `Rat.add`; spelt out so that concrete values reduce). -/
def ratAdd (a b : ℚ) : ℚ := Rat.divInt (a.num * b.den + b.num * a.den) (a.den * b.den)

/-- A Python `float` value: a finite value (exact rational stand-in, see
header), a signed infinity, or a NaN. -/
inductive PyFloat where
  | finite (q : ℚ)
  | inf (neg : Bool)
  | nan
deriving DecidableEq, Repr

/-- Python `float.__add__` (value-level; exact on finite operands). -/
def PyFloat.add : PyFloat → PyFloat → PyFloat
  | .nan, _ => .nan
  | _, .nan => .nan
  | .inf s, .inf t => if s = t then .inf s else .nan
  | .inf s, .finite _ => .inf s
  | .finite _, .inf s => .inf s
  | .finite a, .finite b => .finite (ratAdd a b)

/-- Python unary negation on floats. -/
def PyFloat.neg : PyFloat → PyFloat
  | .nan => .nan
  | .inf s => .inf (!s)
  | .finite a => .finite (-a)

/-- Python `float` subtraction. -/
def PyFloat.sub (a b : PyFloat) : PyFloat := a.add b.neg

/-- Python `sum(...)` over float values (starts from the int `0`). -/
def pySum (l : List PyFloat) : PyFloat := l.foldl PyFloat.add (.finite 0)

/-- Case-insensitive match of a character list against a lowercase word. -/
def matchWord (cs : List Char) (w : List Char) : Bool :=
  cs.map Char.toLower == w

/-- Parse the part of a float literal after the optional sign:
`digits [. digits] [e[sign]digits]` with at least one digit in the
mantissa, or `inf` / `infinity` / `nan` (case-insensitive).  Returns the
unsigned value.  (Python additionally allows `_` digit grouping, which no
input considered here uses and which we do not model.) -/
def pyFloatBody (cs : List Char) : Option PyFloat :=
  if matchWord cs "inf".data || matchWord cs "infinity".data then
    some (.inf false)
  else if matchWord cs "nan".data then
    some .nan
  else
    let ip := cs.takeWhile Char.isDigit
    let r1 := cs.dropWhile Char.isDigit
    let (fp, r2) :=
      match r1 with
      | '.' :: r => (r.takeWhile Char.isDigit, r.dropWhile Char.isDigit)
      | _ => ([], r1)
    if ip.isEmpty && fp.isEmpty then none
    else
      -- value = (digits of int-part ++ frac-part) · 10^(exp − |frac-part|),
      -- assembled through a single `Rat.divInt` so concrete values reduce
      let n : Nat := digitsToNat (ip ++ fp)
      let mkVal : Int → PyFloat := fun ev =>
        if 0 ≤ ev - (fp.length : Int) then
          .finite (Rat.divInt ((n : Int) * (10 : Int) ^ (ev - (fp.length : Int)).toNat) 1)
        else
          .finite (Rat.divInt (n : Int) ((10 : Int) ^ (ev - (fp.length : Int)).natAbs))
      match r2 with
      | [] => some (mkVal 0)
      | e :: r3 =>
        if e = 'e' || e = 'E' then
          let (eneg, r4) :=
            match r3 with
            | '-' :: r => (true, r)
            | '+' :: r => (false, r)
            | _ => (false, r3)
          if r4.isEmpty || !(r4.all Char.isDigit) then none
          else
            let ev : Int := if eneg then -(digitsToNat r4 : Int) else (digitsToNat r4 : Int)
            some (mkVal ev)
        else none

/-- Python `float(s)`: strip whitespace, optional sign, then the float
body; `none` models the `ValueError` raise. -/
def pyFloat (s : String) : Option PyFloat :=
  let cs := stripWs s.data
  let (neg, body) :=
    match cs with
    | '-' :: r => (true, r)
    | '+' :: r => (false, r)
    | _ => (false, cs)
  match pyFloatBody body with
  | none => none
  | some v => some (if neg then v.neg else v)

/-- Python `int(s)` (base 10): strip whitespace, optional sign, one or
more digits; `none` models the `ValueError` raise.  (Underscore grouping
not modelled, as for `pyFloat`.) -/
def pyInt (s : String) : Option Int :=
  let cs := stripWs s.data
  let (neg, body) :=
    match cs with
    | '-' :: r => (true, r)
    | '+' :: r => (false, r)
    | _ => (false, cs)
  if body.isEmpty || !(body.all Char.isDigit) then none
  else some (if neg then -(digitsToNat body : Int) else (digitsToNat body : Int))

/-- `str.replace(',', '.')`: a single-character pattern replace is the
character-wise map. -/
def replaceCommaDot (s : String) : String :=
  ⟨s.data.map (fun c => if c = ',' then '.' else c)⟩

/-- The amount parse performed by the amount-collecting handlers
(`float(update.message.text.replace(',', '.'))`, bot.py lines 138, 236,
330). -/
def parse_valor (s : String) : Option PyFloat := pyFloat (replaceCommaDot s)

/-! ## `strptime(s, '%d/%m/%Y')` -/

/-- Leap year (Gregorian). -/
def isLeap (y : Int) : Bool := (y % 4 == 0 && y % 100 != 0) || y % 400 == 0

/-- Days in a month. -/
def daysInMonth (y : Int) (m : Nat) : Nat :=
  if m = 2 then (if isLeap y then 29 else 28)
  else if m = 4 || m = 6 || m = 9 || m = 11 then 30
  else 31

/-- Split a character list at a separator character. -/
def splitOnChar (sep : Char) : List Char → List (List Char)
  | [] => [[]]
  | c :: cs =>
    if c = sep then [] :: splitOnChar sep cs
    else
      match splitOnChar sep cs with
      | [] => [[c]]
      | g :: gs => (c :: g) :: gs

/-- `str.lower()` (character-wise; ASCII case folding, which is all the
date inputs considered here use). -/
def pyLower (s : String) : List Char := s.data.map Char.toLower

/-- `datetime.strptime(s, '%d/%m/%Y').date()`.  CPython's `_strptime`
matches `%d` against 1–2 digits valued 1..31, `%m` against 1–2 digits
valued 1..12, `%Y` against exactly 4 digits, requires the whole string to
be consumed, and then the `date` constructor rejects days beyond the
month length and year 0.  `none` models the `ValueError` raise. -/
def strptime_dmY (s : List Char) : Option Date :=
  match splitOnChar '/' s with
  | [dd, mm, yy] =>
    if dd.all Char.isDigit && mm.all Char.isDigit && yy.all Char.isDigit &&
       1 ≤ dd.length && dd.length ≤ 2 && 1 ≤ mm.length && mm.length ≤ 2 &&
       yy.length = 4 then
      let d := digitsToNat dd
      let m := digitsToNat mm
      let y : Int := digitsToNat yy
      if 1 ≤ m && m ≤ 12 && 1 ≤ d && d ≤ daysInMonth y m && 1 ≤ y then
        some (mkDate y m d)
      else none
    else none
  | _ => none

/-- The date parse shared (inlined verbatim) by `receita_data`
(bot.py 159–164), `despesa_vencimento` (257–262) and `pagar_data`
(458–463): lowercase the text; the literal `'hoje'` means the current
date (`date.today()` at the moment the handler runs, passed here as the
`today` argument); anything else goes through
`strptime(s, '%d/%m/%Y')`. -/
def parse_date_input (today : Date) (s : String) : Option Date :=
  let t := pyLower s
  if t = "hoje".data then some today else strptime_dmY t

/-! ## The persistence gateway (`database.py`)

The Mongo collections are lists of records; `insert_one` appends and
assigns the next id.  Note on the source text: in `create_transaction`
(lines 101–102), `update_transaction_status` (174–175) and
`get_due_transactions` (210/212) the `date` → `datetime` conversion
lines appear mis-indented in the file; they are modelled in their only
syntactically coherent position, inside the enclosing function as part
of the preceding statement's block. -/

/-- `installment_details` dict (bot.py 348–352). -/
structure InstallmentDetails where
  total_installments : Int
  current_installment : Int
  installment_value : PyFloat
deriving DecidableEq, Repr

/-- A document of the `users` collection (database.py 50–55). -/
structure StoredUser where
  user_id : Int
  username : Option String
  chat_id : Option Int
  created_at : DateTime
deriving DecidableEq, Repr

/-- A document of the `transactions` collection (database.py 104–119).
`_id` is modelled as a `Nat` (see file header). -/
structure StoredTransaction where
  _id : Nat
  user_id : Int
  type : String
  category : String
  description : String
  value : PyFloat
  is_installment : Bool
  installment_details : Option InstallmentDetails
  due_date : Option DateTime
  payment_date : Option DateTime
  status : String
  created_at : DateTime
  updated_at : DateTime
deriving DecidableEq, Repr

/-- The database: both collections plus the next id `insert_one` will
assign. -/
structure Store where
  users : List StoredUser
  transactions : List StoredTransaction
  nextId : Nat
deriving DecidableEq, Repr

/-- Python truthiness of `user.get('chat_id')` (absent, `None` and `0`
are all falsy). -/
def chatTruthy : Option Int → Bool
  | none => false
  | some c => c ≠ 0

/-- `get_user` (database.py 65–79): `find_one({"user_id": user_id})`. -/
def get_user (st : Store) (uid : Int) : Option StoredUser :=
  st.users.find? (fun u => u.user_id = uid)

/-- `create_transaction` (database.py 81–127).  A `date`-typed due date
is converted to a midnight `datetime` before insertion (lines 101–102;
the handlers always pass a plain `date`, which is always truthy);
`installment_details` is stored only when `is_installment` and the
details are both truthy (line 118); `created_at`/`updated_at` are
`datetime.utcnow()`, passed here as `now`.  Returns the new store and
`str(result.inserted_id)` modelled as the `Nat` id (`none` would model
an insertion exception, which the deterministic model does not raise). -/
def create_transaction (st : Store) (user_id : Int) (transaction_type : String)
    (category : String) (description : String) (value : PyFloat)
    (due_date : Option Date) (is_installment : Bool)
    (installment_details : Option InstallmentDetails) (now : DateTime) :
    Store × Option Nat :=
  let due : Option DateTime := due_date.map DateTime.combine
  let t : StoredTransaction :=
    { _id := st.nextId
      user_id := user_id
      type := transaction_type
      category := category
      description := description
      value := value
      is_installment := is_installment
      installment_details :=
        if is_installment && installment_details.isSome then installment_details else none
      due_date := due
      payment_date := none
      status := "aberto"
      created_at := now
      updated_at := now }
  ({ st with transactions := st.transactions ++ [t], nextId := st.nextId + 1 },
   some st.nextId)

/-- Insert a transaction into a list sorted by `created_at` descending
(newest first) keeping existing relative order of equal keys. -/
def insertByCreatedDesc (t : StoredTransaction) :
    List StoredTransaction → List StoredTransaction
  | [] => [t]
  | u :: us =>
    if DateTime.lt u.created_at t.created_at then t :: u :: us
    else u :: insertByCreatedDesc t us

/-- Sort by `created_at` descending (`.sort("created_at", -1)`). -/
def sortByCreatedDesc : List StoredTransaction → List StoredTransaction
  | [] => []
  | t :: ts => insertByCreatedDesc t (sortByCreatedDesc ts)

/-- `get_transactions` (database.py 129–158): filter by user and the
optional type/status/category filters, newest-created first. -/
def get_transactions (st : Store) (user_id : Int) (transaction_type : Option String)
    (status : Option String) (category : Option String) : List StoredTransaction :=
  sortByCreatedDesc <| st.transactions.filter fun t =>
    t.user_id = user_id &&
    (match transaction_type with | none => true | some ty => t.type = ty) &&
    (match status with | none => true | some s => t.status = s) &&
    (match category with | none => true | some c => t.category = c)

/-- Apply `update_one`'s `$set` document to a matched transaction:
`status` and `updated_at` always, `payment_date` only when a (truthy)
payment date was supplied (database.py 177–183). -/
def applySet (status : String) (payment_date : Option DateTime) (now : DateTime)
    (t : StoredTransaction) : StoredTransaction :=
  let t' := { t with status := status, updated_at := now }
  match payment_date with
  | some p => { t' with payment_date := some p }
  | none => t'

/-- `update_one` on the first `_id` match: returns the new list and
`modified_count > 0` (a matched document counts as modified only if the
`$set` actually changed it). -/
def updateFirstById (tid : Nat) (f : StoredTransaction → StoredTransaction) :
    List StoredTransaction → List StoredTransaction × Bool
  | [] => ([], false)
  | t :: ts =>
    if t._id = tid then (f t :: ts, decide (f t ≠ t))
    else
      let (ts', b) := updateFirstById tid f ts
      (t :: ts', b)

/-- `update_transaction_status` (database.py 160–194): convert a
`date`-typed payment date to a midnight `datetime` (lines 174–175), then
`update_one({"_id": ...}, {"$set": ...})`; the result is
`modified_count > 0`.  The filter is *by id only* — no owner condition.
A malformed ObjectId string (which raises inside the `try` and yields
`False` with no mutation) behaves exactly like a `tid` matching no
document. -/
def update_transaction_status (st : Store) (tid : Nat) (status : String)
    (payment_date : Option Date) (now : DateTime) : Store × Bool :=
  let pd : Option DateTime := payment_date.map DateTime.combine
  let (ts', modified) := updateFirstById tid (applySet status pd now) st.transactions
  ({ st with transactions := ts' }, modified)

/-- `get_due_transactions` (database.py 196–225): open expenses whose
`due_date` is at most midnight of `today + days_ahead` days.  In Mongo a
`$lte` range on a datetime field never matches a document whose
`due_date` is null/absent, so only transactions carrying a due date are
selected. -/
def get_due_transactions (st : Store) (today : Date) (days_ahead : Int) :
    List StoredTransaction :=
  let target := DateTime.combine (today.addDays days_ahead)
  st.transactions.filter fun t =>
    t.type = "despesa" && t.status = "aberto" &&
    (match t.due_date with
     | some d => DateTime.le d target
     | none => false)

/-- Midnight of the first day of the month (database.py 267). -/
def monthStart (year : Int) (month : Nat) : DateTime :=
  DateTime.combine (mkDate year month 1)

/-- Midnight of the first day of the following month
(database.py 268–271). -/
def monthStop (year : Int) (month : Nat) : DateTime :=
  if month = 12 then DateTime.combine (mkDate (year + 1) 1 1)
  else DateTime.combine (mkDate year (month + 1) 1)

/-- The monthly-summary query predicate (database.py 273–276): the
user's transactions with `created_at` in `[start of month, start of next
month)`. -/
def inMonthQuery (user_id : Int) (year : Int) (month : Nat)
    (t : StoredTransaction) : Bool :=
  t.user_id = user_id && DateTime.le (monthStart year month) t.created_at &&
    DateTime.lt t.created_at (monthStop year month)

/-- The transactions counted by the monthly summary. -/
def monthFilter (st : Store) (user_id : Int) (year : Int) (month : Nat) :
    List StoredTransaction :=
  st.transactions.filter (inMonthQuery user_id year month)

/-- Result of `get_monthly_summary`. -/
structure MonthlySummary where
  receitas : PyFloat
  despesas : PyFloat
  saldo : PyFloat
  total_transacoes : Nat
deriving DecidableEq, Repr

/-- `get_monthly_summary` (database.py 252–293): sum the month's income
and expense values, net them, and count the month's transactions. -/
def get_monthly_summary (st : Store) (user_id : Int) (year : Int) (month : Nat) :
    MonthlySummary :=
  let txs := monthFilter st user_id year month
  let receitas := pySum ((txs.filter fun t => t.type = "receita").map (·.value))
  let despesas := pySum ((txs.filter fun t => t.type = "despesa").map (·.value))
  { receitas := receitas
    despesas := despesas
    saldo := receitas.sub despesas
    total_transacoes := txs.length }

/-! ## The conversation flows (`bot.py`)

One Lean function per Python handler, plus `convStep`, the dispatch that
`create_application` (bot.py 548–599) wires: each collecting state
accepts plain-text messages (`filters.TEXT & ~filters.COMMAND`), the
installment-choice state accepts callback queries, and `/cancel` is a
fallback reachable from every state of every flow.  Replies are not
modelled textually; what a terminal handler *reports* (success/failure
of the persistence call) is recorded in the step result. -/

/-- The conversation states of bot.py lines 29–32, plus `idle` for
`ConversationHandler.END` / no active conversation. -/
inductive ConvState where
  | RECEITA_CATEGORIA | RECEITA_DESCRICAO | RECEITA_VALOR | RECEITA_DATA
  | DESPESA_CATEGORIA | DESPESA_DESCRICAO | DESPESA_VALOR | DESPESA_VENCIMENTO
  | DESPESA_PARCELAMENTO | DESPESA_PARCELAS | DESPESA_VALOR_PARCELA
  | PAGAR_DATA
  | idle
deriving DecidableEq, Repr

/-- An incoming update, as the dispatch distinguishes them: a plain text
message, a callback query (inline-keyboard press), the `/cancel`
command, or one of the three entry commands (`/pagar`'s id argument is
pre-modelled as a `Nat`, see file header). -/
inductive BotInput where
  | text (s : String)
  | callback (data : String)
  | cancelCmd
  | receitaCmd
  | despesaCmd
  | pagarCmd (args : List Nat)
deriving DecidableEq, Repr

/-- Ambient facts of one handler invocation: the invoking user and the
wall clock (`date.today()` / `datetime.utcnow()` at that moment). -/
structure Env where
  uid : Int
  today : Date
  now : DateTime
deriving DecidableEq, Repr

/-- `context.user_data`: the per-user draft bag.  Every key the handlers
write is a field; `.clear()` resets all fields to `none`. -/
structure UserData where
  receita_categoria : Option String := none
  receita_descricao : Option String := none
  receita_valor : Option PyFloat := none
  despesa_categoria : Option String := none
  despesa_descricao : Option String := none
  despesa_valor : Option PyFloat := none
  despesa_vencimento : Option Date := none
  despesa_parcelas : Option Int := none
  despesa_valor_parcela : Option PyFloat := none
  pagar_id : Option Nat := none
deriving DecidableEq, Repr

/-- Result of one handler invocation: the state returned to the
conversation dispatcher, the draft bag, the store, the ids inserted by
this step, and (for the terminal handlers) whether success or failure
was reported to the user. -/
structure StepResult where
  state : ConvState
  ud : UserData
  store : Store
  inserted : List Nat := []
  reported : Option Bool := none
deriving DecidableEq, Repr

/-- `receita_categoria` (bot.py 115–123). -/
def receita_categoria (s : String) (ud : UserData) (st : Store) : StepResult :=
  { state := .RECEITA_DESCRICAO, ud := { ud with receita_categoria := some s }, store := st }

/-- `receita_descricao` (bot.py 125–133). -/
def receita_descricao (s : String) (ud : UserData) (st : Store) : StepResult :=
  { state := .RECEITA_VALOR, ud := { ud with receita_descricao := some s }, store := st }

/-- `receita_valor` (bot.py 135–154): parse the amount
(`float(text.replace(',', '.'))`); on `ValueError` re-emit the same
state leaving the draft untouched. -/
def receita_valor (s : String) (ud : UserData) (st : Store) : StepResult :=
  match parse_valor s with
  | some v => { state := .RECEITA_DATA, ud := { ud with receita_valor := some v }, store := st }
  | none => { state := .RECEITA_VALOR, ud := ud, store := st }

/-- `receita_data` (bot.py 156–201): parse the date ('hoje' or
DD/MM/AAAA); on success insert the income record, report the outcome,
clear the draft and end; on `ValueError` re-emit the same state.
(The draft fields are necessarily set at this state — a missing key
would be a `KeyError`, which no reachable invocation produces.) -/
def receita_data (s : String) (env : Env) (ud : UserData) (st : Store) : StepResult :=
  match parse_date_input env.today s with
  | none => { state := .RECEITA_DATA, ud := ud, store := st }
  | some d =>
    let (st', tid) := create_transaction st env.uid "receita"
      (ud.receita_categoria.getD "") (ud.receita_descricao.getD "")
      (ud.receita_valor.getD (.finite 0)) (some d) false none env.now
    { state := .idle, ud := {}, store := st',
      inserted := tid.toList, reported := some tid.isSome }

/-- `despesa_categoria` (bot.py 213–221). -/
def despesa_categoria (s : String) (ud : UserData) (st : Store) : StepResult :=
  { state := .DESPESA_DESCRICAO, ud := { ud with despesa_categoria := some s }, store := st }

/-- `despesa_descricao` (bot.py 223–231). -/
def despesa_descricao (s : String) (ud : UserData) (st : Store) : StepResult :=
  { state := .DESPESA_VALOR, ud := { ud with despesa_descricao := some s }, store := st }

/-- `despesa_valor` (bot.py 233–252): same amount parse as
`receita_valor`. -/
def despesa_valor (s : String) (ud : UserData) (st : Store) : StepResult :=
  match parse_valor s with
  | some v => { state := .DESPESA_VENCIMENTO, ud := { ud with despesa_valor := some v }, store := st }
  | none => { state := .DESPESA_VALOR, ud := ud, store := st }

/-- `despesa_vencimento` (bot.py 254–286): parse the due date, stash it,
and ask the installment yes/no question. -/
def despesa_vencimento (s : String) (env : Env) (ud : UserData) (st : Store) : StepResult :=
  match parse_date_input env.today s with
  | none => { state := .DESPESA_VENCIMENTO, ud := ud, store := st }
  | some d =>
    { state := .DESPESA_PARCELAMENTO, ud := { ud with despesa_vencimento := some d }, store := st }

/-- `finalizar_despesa` (bot.py 342–390): build the installment details
when `parcelado`, insert the expense record, then reply with the
outcome via `update.message.reply_text` (line 382 on success, 384 on
failure), clear the draft and end.

`has_message` records whether the invoking update carries a message.
Invoked from `despesa_valor_parcela` (a text-message update) it does;
invoked from `despesa_parcelamento` (a callback-query update,
bot.py 302) `update.message` is `None`, so the reply — which comes
*after* the insert — is a deterministic `AttributeError`: the draft
clear and the `ConversationHandler.END` return (lines 389–390) never
execute, nothing is reported, and the conversation remains in the state
the update arrived in, `DESPESA_PARCELAMENTO` (the only message-less
call site), with the draft intact. -/
def finalizar_despesa (env : Env) (ud : UserData) (st : Store) (parcelado : Bool)
    (has_message : Bool) : StepResult :=
  let details : Option InstallmentDetails :=
    if parcelado then
      some { total_installments := ud.despesa_parcelas.getD 0
             current_installment := 1
             installment_value := ud.despesa_valor_parcela.getD (.finite 0) }
    else none
  let (st', tid) := create_transaction st env.uid "despesa"
    (ud.despesa_categoria.getD "") (ud.despesa_descricao.getD "")
    (ud.despesa_valor.getD (.finite 0)) ud.despesa_vencimento parcelado details env.now
  if has_message then
    { state := .idle, ud := {}, store := st',
      inserted := tid.toList, reported := some tid.isSome }
  else
    -- AttributeError on `update.message.reply_text`: insert persisted,
    -- handler aborted before report / draft clear / END
    { state := .DESPESA_PARCELAMENTO, ud := ud, store := st',
      inserted := tid.toList, reported := none }

/-- `despesa_parcelamento` (bot.py 288–302): on the `parcelado_sim`
callback go collect the installment count; on any other callback data
finalize without installments — passing along the callback-query
update, which has no `update.message`. -/
def despesa_parcelamento (data : String) (env : Env) (ud : UserData) (st : Store) :
    StepResult :=
  if data = "parcelado_sim" then
    { state := .DESPESA_PARCELAS, ud := ud, store := st }
  else
    finalizar_despesa env ud st false false

/-- `despesa_parcelas` (bot.py 304–325): parse a positive integer count;
`int()` failure or a non-positive count re-emits the same state. -/
def despesa_parcelas (s : String) (ud : UserData) (st : Store) : StepResult :=
  match pyInt s with
  | some n =>
    if n ≤ 0 then { state := .DESPESA_PARCELAS, ud := ud, store := st }
    else { state := .DESPESA_VALOR_PARCELA, ud := { ud with despesa_parcelas := some n }, store := st }
  | none => { state := .DESPESA_PARCELAS, ud := ud, store := st }

/-- `despesa_valor_parcela` (bot.py 327–340): parse the per-installment
amount and finalize with installments. -/
def despesa_valor_parcela (s : String) (env : Env) (ud : UserData) (st : Store) :
    StepResult :=
  match parse_valor s with
  | some v => finalizar_despesa env { ud with despesa_valor_parcela := some v } st true true
  | none => { state := .DESPESA_VALOR_PARCELA, ud := ud, store := st }

/-- `pagar_despesa` (bot.py 433–453): without an id argument the flow is
not entered; with one, stash it and await the payment date. -/
def pagar_despesa (args : List Nat) (ud : UserData) (st : Store) : StepResult :=
  match args with
  | [] => { state := .idle, ud := ud, store := st }
  | tid :: _ => { state := .PAGAR_DATA, ud := { ud with pagar_id := some tid }, store := st }

/-- `pagar_data` (bot.py 455–491): parse the payment date, update the
transaction's status by id, report the update's success, clear the draft
and end; on a date `ValueError` re-emit the same state. -/
def pagar_data (s : String) (env : Env) (ud : UserData) (st : Store) : StepResult :=
  match parse_date_input env.today s with
  | none => { state := .PAGAR_DATA, ud := ud, store := st }
  | some d =>
    let (st', ok) := update_transaction_status st (ud.pagar_id.getD 0) "pago" (some d) env.now
    { state := .idle, ud := {}, store := st', reported := some ok }

/-- `cancel` (bot.py 540–546): clear the draft and end the
conversation.  It touches nothing else — in particular no store
operation is performed. -/
def cancel (_ud : UserData) (st : Store) : StepResult :=
  { state := .idle, ud := {}, store := st }

/-- The conversation dispatch built by `create_application`
(bot.py 548–599): route an input arriving in a given state to the
handler registered for it; inputs no handler of the state accepts leave
everything unchanged (the dispatcher simply does not fire). -/
def convStep (state : ConvState) (inp : BotInput) (env : Env) (ud : UserData)
    (st : Store) : StepResult :=
  match inp with
  | .cancelCmd =>
    match state with
    | .idle => { state := .idle, ud := ud, store := st }
    | _ => cancel ud st
  | .receitaCmd =>
    match state with
    | .idle => { state := .RECEITA_CATEGORIA, ud := ud, store := st }
    | s => { state := s, ud := ud, store := st }
  | .despesaCmd =>
    match state with
    | .idle => { state := .DESPESA_CATEGORIA, ud := ud, store := st }
    | s => { state := s, ud := ud, store := st }
  | .pagarCmd args =>
    match state with
    | .idle => pagar_despesa args ud st
    | s => { state := s, ud := ud, store := st }
  | .text s =>
    match state with
    | .RECEITA_CATEGORIA => receita_categoria s ud st
    | .RECEITA_DESCRICAO => receita_descricao s ud st
    | .RECEITA_VALOR => receita_valor s ud st
    | .RECEITA_DATA => receita_data s env ud st
    | .DESPESA_CATEGORIA => despesa_categoria s ud st
    | .DESPESA_DESCRICAO => despesa_descricao s ud st
    | .DESPESA_VALOR => despesa_valor s ud st
    | .DESPESA_VENCIMENTO => despesa_vencimento s env ud st
    | .DESPESA_PARCELAS => despesa_parcelas s ud st
    | .DESPESA_VALOR_PARCELA => despesa_valor_parcela s env ud st
    | .PAGAR_DATA => pagar_data s env ud st
    | st' => { state := st', ud := ud, store := st }
  | .callback data =>
    match state with
    | .DESPESA_PARCELAMENTO => despesa_parcelamento data env ud st
    | st' => { state := st', ud := ud, store := st }

/-! ## The notification jobs (`notifications.py`) -/

/-- The classification of a due transaction by its days-until-due
(notifications.py 74–93): negative → overdue/urgent, zero → due today,
one → due tomorrow, more → upcoming reminder. -/
inductive DueClass where
  | overdue (dias : Nat)
  | dueToday
  | dueTomorrow
  | upcoming (dias : Int)
deriving DecidableEq, Repr

/-- The branch structure of notifications.py 74–93 applied to a computed
`days_until_due` value. -/
def classify_days (days : Int) : DueClass :=
  if days < 0 then .overdue days.natAbs
  else if days = 0 then .dueToday
  else if days ≤ 1 then .dueTomorrow
  else .upcoming days

/-- First-occurrence distinct `user_id` values of the transactions
collection (`transactions.distinct("user_id")`; Mongo's order is
unspecified, first occurrence is one valid order and none of the
verified properties depends on it). -/
def distinctUserIds (ts : List StoredTransaction) : List Int :=
  go [] ts
where
  go (seen : List Int) : List StoredTransaction → List Int
    | [] => []
    | t :: ts => if t.user_id ∈ seen then go seen ts
                 else t.user_id :: go (t.user_id :: seen) ts

/-- One due notification the due-check would dispatch: the recipient
chat and the classification driving the message text. -/
structure DueNotif where
  chat_id : Int
  cls : DueClass
deriving DecidableEq, Repr

/-- `check_due_transactions` (notifications.py 50–123): fetch the open
expenses due within 3 days, and for each one look up the owner (skipping
silently when the user record or its chat id is falsy), compute
`days_until_due = (due_date - today).days`, classify, and send.  The
subtraction is `datetime - date` (`pySub_datetime_date`), which raises
`TypeError`; the surrounding `except` catches it at the *job* boundary,
so the run aborts, keeping the notifications already sent.  Returns the
sent notifications and whether the run aborted with an exception. -/
def check_due_transactions (st : Store) (today : Date) : List DueNotif × Bool :=
  go (get_due_transactions st today 3) []
where
  go : List StoredTransaction → List DueNotif → List DueNotif × Bool
    | [], acc => (acc.reverse, false)
    | t :: ts, acc =>
      match get_user st t.user_id with
      | none => go ts acc
      | some u =>
        if chatTruthy u.chat_id then
          -- transaction['due_date'] is the stored (midnight) datetime;
          -- subtracting the plain date `today` from it raises
          match t.due_date with
          | some dd =>
            match pySub_datetime_date dd today with
            | some days =>
              go ts ({ chat_id := u.chat_id.getD 0, cls := classify_days days } :: acc)
            | none => (acc.reverse, true)
          | none => (acc.reverse, true)   -- None - date: the same TypeError
        else go ts acc

/-- The semantic content of one daily-summary digest
(notifications.py 166–190): the open income/expense counts and totals,
the listed due-today expenses (category and value, at most 3) and the
overflow count. -/
structure Digest where
  chat_id : Int
  receitas_abertas : Nat
  valor_receitas : PyFloat
  despesas_abertas : Nat
  valor_despesas : PyFloat
  vencendo_hoje_shown : List (String × PyFloat)
  vencendo_hoje_overflow : Nat
deriving DecidableEq, Repr

/-- `send_daily_summary` (notifications.py 125–196): for each distinct
transaction owner, skip silently unless a user record with a truthy chat
id exists; fetch the user's open transactions and skip if there are
none; aggregate open income vs. expense count and total; collect the
open expenses whose `due_date` equals `today` — a `datetime == date`
comparison (`pyEq_datetime_date`) — list at most 3 of them and count the
overflow; send one digest per user. -/
def send_daily_summary (st : Store) (today : Date) : List Digest :=
  (distinctUserIds st.transactions).filterMap fun uid =>
    match get_user st uid with
    | none => none
    | some u =>
      if chatTruthy u.chat_id then
        let opens := get_transactions st uid none (some "aberto") none
        if opens.isEmpty then none
        else
          let receitas := opens.filter fun t => t.type = "receita"
          let despesas := opens.filter fun t => t.type = "despesa"
          let vencendo := despesas.filter fun t =>
            match t.due_date with
            | some dd => pyEq_datetime_date dd today
            | none => false
          some
            { chat_id := u.chat_id.getD 0
              receitas_abertas := receitas.length
              valor_receitas := pySum (receitas.map (·.value))
              despesas_abertas := despesas.length
              valor_despesas := pySum (despesas.map (·.value))
              vencendo_hoje_shown := (vencendo.take 3).map fun t => (t.category, t.value)
              vencendo_hoje_overflow :=
                if vencendo.length > 3 then vencendo.length - 3 else 0 }
      else none

/-! ## Helper lemmas -/

/-- Mapping the comma-to-dot substitution over digit characters is the
identity. -/
lemma map_commaDot_of_digits {l : List Char} (h : ∀ c ∈ l, c.isDigit) :
    l.map (fun c => if c = ',' then '.' else c) = l := by
  induction l with
  | nil => rfl
  | cons c cs ih =>
    have hc : c ≠ ',' := by
      intro e
      have hd := h c (by simp)
      rw [e] at hd
      exact absurd hd (by decide)
    simp only [List.map_cons, if_neg hc]
    rw [ih (fun x hx => h x (by simp [hx]))]

/-- If `update_one` modified nothing, the collection is unchanged. -/
lemma updateFirstById_snd_false {tid : Nat} {f : StoredTransaction → StoredTransaction}
    {l : List StoredTransaction} (h : (updateFirstById tid f l).2 = false) :
    (updateFirstById tid f l).1 = l := by
  induction l with
  | nil => rfl
  | cons t ts ih =>
    by_cases ht : t._id = tid
    · simp only [updateFirstById, if_pos ht] at h ⊢
      have : f t = t := by
        by_contra hne
        simp [hne] at h
      simp [this]
    · simp only [updateFirstById, if_neg ht] at h ⊢
      rw [ih h]

/-- A `tid` matching no document yields `modified_count = 0`. -/
lemma updateFirstById_not_found {tid : Nat} {f : StoredTransaction → StoredTransaction}
    {l : List StoredTransaction} (h : tid ∉ l.map (·._id)) :
    (updateFirstById tid f l).2 = false := by
  induction l with
  | nil => rfl
  | cons t ts ih =>
    simp only [List.map_cons, List.mem_cons] at h
    push_neg at h
    have ht : t._id ≠ tid := fun e => h.1 e.symm
    simp only [updateFirstById, if_neg ht]
    exact ih h.2

/-! ## The claims -/

/-- C5: for every pair of digit strings `d1`, `d2`, the amount parse of
the Entry Flow (`float(text.replace(',', '.'))`) yields the same result
for `d1 ++ "," ++ d2` and for `d1 ++ "." ++ d2`: the comma is replaced
by a dot before parsing, after which the two inputs are the same
string. -/
theorem C5_separator_equivalence (d1 d2 : String)
    (h1 : ∀ c ∈ d1.data, c.isDigit) (h2 : ∀ c ∈ d2.data, c.isDigit) :
    parse_valor (d1 ++ "," ++ d2) = parse_valor (d1 ++ "." ++ d2) := by
  unfold parse_valor replaceCommaDot
  congr 1
  simp [String.data_append, map_commaDot_of_digits h1, map_commaDot_of_digits h2]

/-- Witness for C5 at the spec's example: "150,50" and "150.50" parse
identically, to the value 150.50 (= 301/2). -/
theorem C5_separator_equivalence_witness :
    parse_valor ("150" ++ "," ++ "50") = parse_valor ("150" ++ "." ++ "50") ∧
    parse_valor "150,50" = some (.finite (mkRat 301 2)) ∧
    parse_valor "150.50" = some (.finite (mkRat 301 2)) :=
  ⟨C5_separator_equivalence "150" "50" (by decide) (by decide),
   by decide, by decide⟩

/-- C8: an input that does not parse in an amount-collecting state
(`receita_valor`, `despesa_valor`, `despesa_valor_parcela`), a
non-integer or non-positive count in `despesa_parcelas`, and an
unparseable date in any date-collecting state, each re-emit exactly the
same state with the draft untouched, the store untouched and nothing
inserted or reported: malformed numeric/date input never aborts the
flow. -/
theorem C8_invalid_input_retries (env : Env) (ud : UserData) (st : Store) (s : String) :
    (parse_valor s = none →
      convStep .RECEITA_VALOR (.text s) env ud st =
        { state := .RECEITA_VALOR, ud := ud, store := st } ∧
      convStep .DESPESA_VALOR (.text s) env ud st =
        { state := .DESPESA_VALOR, ud := ud, store := st } ∧
      convStep .DESPESA_VALOR_PARCELA (.text s) env ud st =
        { state := .DESPESA_VALOR_PARCELA, ud := ud, store := st }) ∧
    ((pyInt s = none ∨ ∃ n, pyInt s = some n ∧ n ≤ 0) →
      convStep .DESPESA_PARCELAS (.text s) env ud st =
        { state := .DESPESA_PARCELAS, ud := ud, store := st }) ∧
    (parse_date_input env.today s = none →
      convStep .RECEITA_DATA (.text s) env ud st =
        { state := .RECEITA_DATA, ud := ud, store := st } ∧
      convStep .DESPESA_VENCIMENTO (.text s) env ud st =
        { state := .DESPESA_VENCIMENTO, ud := ud, store := st } ∧
      convStep .PAGAR_DATA (.text s) env ud st =
        { state := .PAGAR_DATA, ud := ud, store := st }) := by
  refine ⟨fun hv => ?_, fun hn => ?_, fun hd => ?_⟩
  · simp [convStep, receita_valor, despesa_valor, despesa_valor_parcela, hv]
  · rcases hn with hn | ⟨n, hn, hle⟩
    · simp [convStep, despesa_parcelas, hn]
    · simp [convStep, despesa_parcelas, hn, hle]
  · simp [convStep, receita_data, despesa_vencimento, pagar_data, hd]

/-- Witness for C8 at the spec's example input "abc" (which parses
neither as an amount, nor as a count, nor as a date). -/
theorem C8_invalid_input_retries_witness :
    convStep .RECEITA_VALOR (.text "abc") ⟨1, mkDate 2024 5 10, ⟨19853, 0⟩⟩ {} ⟨[], [], 0⟩ =
      { state := .RECEITA_VALOR, ud := {}, store := ⟨[], [], 0⟩ } ∧
    convStep .DESPESA_PARCELAS (.text "abc") ⟨1, mkDate 2024 5 10, ⟨19853, 0⟩⟩ {} ⟨[], [], 0⟩ =
      { state := .DESPESA_PARCELAS, ud := {}, store := ⟨[], [], 0⟩ } ∧
    convStep .RECEITA_DATA (.text "abc") ⟨1, mkDate 2024 5 10, ⟨19853, 0⟩⟩ {} ⟨[], [], 0⟩ =
      { state := .RECEITA_DATA, ud := {}, store := ⟨[], [], 0⟩ } :=
  have h := C8_invalid_input_retries ⟨1, mkDate 2024 5 10, ⟨19853, 0⟩⟩ {} ⟨[], [], 0⟩ "abc"
  ⟨(h.1 (by decide)).1, h.2.1 (Or.inl (by decide)), (h.2.2 (by decide)).1⟩

/-- C10: the amount-collecting states accept everything Python `float`
accepts after comma-to-dot replacement — "nan", "inf", "1e3" and "-5"
are stored as the amount and advance the flow instead of re-prompting,
and a finalized record's amount can be negative (or non-finite). -/
theorem C10_float_grammar_accepted (env : Env) (ud : UserData) (st : Store) :
    convStep .RECEITA_VALOR (.text "nan") env ud st =
      { state := .RECEITA_DATA, ud := { ud with receita_valor := some .nan }, store := st } ∧
    convStep .RECEITA_VALOR (.text "inf") env ud st =
      { state := .RECEITA_DATA, ud := { ud with receita_valor := some (.inf false) }, store := st } ∧
    convStep .RECEITA_VALOR (.text "1e3") env ud st =
      { state := .RECEITA_DATA,
        ud := { ud with receita_valor := some (.finite (mkRat 1000 1)) }, store := st } ∧
    convStep .RECEITA_VALOR (.text "-5") env ud st =
      { state := .RECEITA_DATA,
        ud := { ud with receita_valor := some (.finite (mkRat (-5) 1)) }, store := st } ∧
    convStep .DESPESA_VALOR (.text "-5") env ud st =
      { state := .DESPESA_VENCIMENTO,
        ud := { ud with despesa_valor := some (.finite (mkRat (-5) 1)) }, store := st } ∧
    (mkRat (-5) 1).num < 0 ∧
    (convStep .RECEITA_DATA (.text "hoje") env
        { receita_categoria := some "Vendas", receita_descricao := some "estorno",
          receita_valor := some (.finite (mkRat (-5) 1)) } st).store.transactions.map (·.value) =
      st.transactions.map (·.value) ++ [.finite (mkRat (-5) 1)] := by
  have hnan : parse_valor "nan" = some .nan := by decide
  have hinf : parse_valor "inf" = some (.inf false) := by decide
  have he3 : parse_valor "1e3" = some (.finite (mkRat 1000 1)) := by decide
  have hm5 : parse_valor "-5" = some (.finite (mkRat (-5) 1)) := by decide
  have hhoje : pyLower "hoje" = "hoje".data := by decide
  refine ⟨?_, ?_, ?_, ?_, ?_, by decide, ?_⟩
  · simp [convStep, receita_valor, hnan]
  · simp [convStep, receita_valor, hinf]
  · simp [convStep, receita_valor, he3]
  · simp [convStep, receita_valor, hm5]
  · simp [convStep, despesa_valor, hm5]
  · simp [convStep, receita_data, parse_date_input, hhoje, create_transaction]

/-- C1 counterexample: contrary to the claim, the literal "today" is
*not* accepted in the date-collecting states — it goes through
`strptime('%d/%m/%Y')` and fails, so the handler re-prompts instead of
using the current date.  Only "hoje" is special-cased
(bot.py line 161). -/
theorem C1_today_literal_counterexample :
    parse_date_input (mkDate 2024 5 10) "today" = none ∧
    parse_date_input (mkDate 2024 5 10) "TODAY" = none ∧
    (convStep .RECEITA_DATA (.text "today") ⟨1, mkDate 2024 5 10, ⟨19853, 0⟩⟩ {} ⟨[], [], 0⟩).state
      = .RECEITA_DATA ∧
    (convStep .PAGAR_DATA (.text "today") ⟨1, mkDate 2024 5 10, ⟨19853, 0⟩⟩ {} ⟨[], [], 0⟩).state
      = .PAGAR_DATA := by
  decide

/-- C1 (amended): in every date-accepting state, the literal "hoje"
(and only it) is accepted case-insensitively and parses to the current
date at the time the input is received (the `today` the handler is
invoked with, not a cached or fixed one); any other input parses only as
a day/month/year date. -/
theorem C1_hoje_literal (t : Date) (s : String) (env : Env) (ud : UserData) (st : Store) :
    (pyLower s = "hoje".data → parse_date_input t s = some t) ∧
    (∀ d : Date, parse_date_input t s = some d →
       pyLower s = "hoje".data ∧ d = t ∨ strptime_dmY (pyLower s) = some d) ∧
    ((convStep .RECEITA_DATA (.text "hoje") env ud st).store.transactions.map (·.due_date) =
       st.transactions.map (·.due_date) ++ [some (DateTime.combine env.today)]) ∧
    ((convStep .DESPESA_VENCIMENTO (.text "Hoje") env ud st).ud.despesa_vencimento =
       some env.today) ∧
    ((convStep .PAGAR_DATA (.text "HOJE") env ud st).store =
       (update_transaction_status st (ud.pagar_id.getD 0) "pago" (some env.today) env.now).1) := by
  have hhoje : pyLower "hoje" = "hoje".data := by decide
  have hHoje : pyLower "Hoje" = "hoje".data := by decide
  have hHOJE : pyLower "HOJE" = "hoje".data := by decide
  refine ⟨fun h => by simp [parse_date_input, h], fun d hd => ?_, ?_, ?_, ?_⟩
  · by_cases h : pyLower s = "hoje".data
    · simp only [parse_date_input, h, if_pos] at hd
      exact Or.inl ⟨h, (Option.some_inj.mp hd).symm⟩
    · simp only [parse_date_input, if_neg h] at hd
      exact Or.inr hd
  · simp [convStep, receita_data, parse_date_input, hhoje, create_transaction]
  · simp [convStep, despesa_vencimento, parse_date_input, hHoje]
  · simp [convStep, pagar_data, parse_date_input, hHOJE, update_transaction_status]

/-- Witness for C1 at a concrete date and the inputs "HOJE" and
"25/12/2024". -/
theorem C1_hoje_literal_witness :
    parse_date_input (mkDate 2024 5 10) "HOJE" = some (mkDate 2024 5 10) ∧
    (∀ d : Date, parse_date_input (mkDate 2024 5 10) "25/12/2024" = some d →
       pyLower "25/12/2024" = "hoje".data ∧ d = mkDate 2024 5 10 ∨
       strptime_dmY (pyLower "25/12/2024") = some d) :=
  ⟨(C1_hoje_literal (mkDate 2024 5 10) "HOJE" ⟨1, mkDate 2024 5 10, ⟨19853, 0⟩⟩ {} ⟨[], [], 0⟩).1
     (by decide),
   (C1_hoje_literal (mkDate 2024 5 10) "25/12/2024" ⟨1, mkDate 2024 5 10, ⟨19853, 0⟩⟩ {}
     ⟨[], [], 0⟩).2.1⟩

/-- A transaction owned by user 2, used to exhibit C2's failure. -/
def C2tx : StoredTransaction :=
  { _id := 7, user_id := 2, type := "despesa", category := "Aluguel",
    description := "aluguel de maio", value := .finite (mkRat 1200 1),
    is_installment := false, installment_details := none,
    due_date := some ⟨19853, 0⟩, payment_date := none, status := "aberto",
    created_at := ⟨19850, 0⟩, updated_at := ⟨19850, 0⟩ }

/-- C2 counterexample: user 1 runs the Payment Flow on the id of a
transaction owned by user 2.  Contrary to the claim, the update query
filters by id only (database.py 186), so the update matches, the other
user's record is mutated to "pago", and success is reported. -/
theorem C2_wrong_owner_counterexample :
    (convStep .PAGAR_DATA (.text "hoje") ⟨1, mkDate 2024 5 10, ⟨19853, 3600⟩⟩
        { pagar_id := some 7 } ⟨[], [C2tx], 8⟩).reported = some true ∧
    (convStep .PAGAR_DATA (.text "hoje") ⟨1, mkDate 2024 5 10, ⟨19853, 3600⟩⟩
        { pagar_id := some 7 } ⟨[], [C2tx], 8⟩).store.transactions.map (·.status) = ["pago"] ∧
    C2tx.status = "aberto" ∧ C2tx.user_id ≠ 1 := by
  decide

/-- C2 (amended): a Payment Flow invocation whose update matches zero
stored records — the identifier does not exist, or the `$set` is a no-op
on the matched record — reports failure (not a fatal error: the flow
still ends normally) and mutates no stored record; ownership, however,
is not part of the update filter, so a foreign owner does not cause a
zero-record match. -/
theorem C2_zero_match_reports_failure (env : Env) (ud : UserData) (st : Store)
    (s : String) (tid : Nat) (d : Date)
    (hid : ud.pagar_id = some tid) (hdate : parse_date_input env.today s = some d) :
    ((update_transaction_status st tid "pago" (some d) env.now).2 = false →
       convStep .PAGAR_DATA (.text s) env ud st =
         { state := .idle, ud := {}, store := st, inserted := [], reported := some false }) ∧
    (tid ∉ st.transactions.map (·._id) →
       (update_transaction_status st tid "pago" (some d) env.now).2 = false) := by
  constructor
  · intro hmod
    have hstore : (update_transaction_status st tid "pago" (some d) env.now).1 = st := by
      unfold update_transaction_status at hmod ⊢
      simp only at hmod ⊢
      rw [updateFirstById_snd_false hmod]
    have hpair : update_transaction_status st tid "pago" (some d) env.now = (st, false) :=
      Prod.ext hstore hmod
    simp [convStep, pagar_data, hdate, hid, hpair]
  · intro hnf
    unfold update_transaction_status
    simpa using updateFirstById_not_found hnf

/-- Witness for C2 at a store in which id 3 does not exist: the flow
reports failure and leaves the store unchanged. -/
theorem C2_zero_match_reports_failure_witness :
    (update_transaction_status ⟨[], [C2tx], 8⟩ 3 "pago" (some (mkDate 2024 5 10))
        ⟨19853, 3600⟩).2 = false ∧
    convStep .PAGAR_DATA (.text "hoje") ⟨1, mkDate 2024 5 10, ⟨19853, 3600⟩⟩
        { pagar_id := some 3 } ⟨[], [C2tx], 8⟩ =
      { state := .idle, ud := {}, store := ⟨[], [C2tx], 8⟩, inserted := [],
        reported := some false } :=
  have h := C2_zero_match_reports_failure ⟨1, mkDate 2024 5 10, ⟨19853, 3600⟩⟩
    { pagar_id := some 3 } ⟨[], [C2tx], 8⟩ "hoje" 3 (mkDate 2024 5 10) rfl (by decide)
  have hm : (update_transaction_status ⟨[], [C2tx], 8⟩ 3 "pago" (some (mkDate 2024 5 10))
      ⟨19853, 3600⟩).2 = false := h.2 (by decide)
  ⟨hm, h.1 hm⟩

/-- C7: a `/cancel` in any non-terminal state immediately returns to
idle with the draft cleared, the store untouched and nothing inserted or
reported; a subsequent entry command then starts from that cleared
draft, with no residue of the cancelled flow. -/
theorem C7_cancel_discards_draft (stt : ConvState) (env : Env) (ud : UserData)
    (st : Store) (h : stt ≠ .idle) :
    convStep stt .cancelCmd env ud st =
      { state := .idle, ud := {}, store := st, inserted := [], reported := none } ∧
    (let r := convStep stt .cancelCmd env ud st
     convStep r.state .receitaCmd env r.ud r.store =
       { state := .RECEITA_CATEGORIA, ud := {}, store := st } ∧
     convStep r.state .despesaCmd env r.ud r.store =
       { state := .DESPESA_CATEGORIA, ud := {}, store := st }) := by
  cases stt <;> simp_all [convStep, cancel]

/-- Witness for C7: cancelling mid-expense-flow (at the due-date state,
with a partially filled draft) discards everything. -/
theorem C7_cancel_discards_draft_witness :
    convStep .DESPESA_VENCIMENTO .cancelCmd ⟨1, mkDate 2024 5 10, ⟨19853, 0⟩⟩
        { despesa_categoria := some "Lazer", despesa_valor := some (.finite (mkRat 80 1)) }
        ⟨[], [], 0⟩ =
      { state := .idle, ud := {}, store := ⟨[], [], 0⟩, inserted := [], reported := none } :=
  (C7_cancel_discards_draft .DESPESA_VENCIMENTO ⟨1, mkDate 2024 5 10, ⟨19853, 0⟩⟩
    { despesa_categoria := some "Lazer", despesa_valor := some (.finite (mkRat 80 1)) }
    ⟨[], [], 0⟩ (by decide)).1

/-- The invocation context of the C6 evaluation. -/
def C6env : Env := ⟨1, mkDate 2024 5 10, ⟨19853, 43200⟩⟩

/-- A complete expense draft standing at the installment choice (for
the C6 evaluation). -/
def C6draft : UserData :=
  { despesa_categoria := some "Mercado", despesa_descricao := some "compras",
    despesa_valor := some (.finite (mkRat 250 1)),
    despesa_vencimento := some (mkDate 2024 5 20) }

/-- C6 evaluated at the failing input.  Answering "no" does insert the
expense record with no installment info, but the handler then
dereferences `update.message` — `None` on the callback-query update —
so `reply_text` raises `AttributeError` after the insert: nothing is
reported, the draft is not cleared, and the conversation stays at the
installment choice instead of finalizing to idle.  Answering "yes" and
then sending 12 and 100.00 (text messages, which do carry
`update.message`) finalizes a record with installment info
{total = 12, current = 1, amount = 100.00} exactly as claimed; and no
input ever takes the income flow into an installment state. -/
theorem C6_installment_paths_eval :
    ((convStep .DESPESA_PARCELAMENTO (.callback "parcelado_nao") C6env C6draft
        ⟨[], [], 0⟩).store.transactions.map
        (fun t => (t.is_installment, t.installment_details)) = [(false, none)]) ∧
    (convStep .DESPESA_PARCELAMENTO (.callback "parcelado_nao") C6env C6draft
        ⟨[], [], 0⟩).state = .DESPESA_PARCELAMENTO ∧
    (convStep .DESPESA_PARCELAMENTO (.callback "parcelado_nao") C6env C6draft
        ⟨[], [], 0⟩).ud = C6draft ∧
    (convStep .DESPESA_PARCELAMENTO (.callback "parcelado_nao") C6env C6draft
        ⟨[], [], 0⟩).reported = none ∧
    (convStep .DESPESA_PARCELAMENTO (.callback "parcelado_sim") C6env C6draft ⟨[], [], 0⟩ =
      { state := .DESPESA_PARCELAS, ud := C6draft, store := ⟨[], [], 0⟩ }) ∧
    (convStep .DESPESA_PARCELAS (.text "12") C6env C6draft ⟨[], [], 0⟩ =
      { state := .DESPESA_VALOR_PARCELA,
        ud := { C6draft with despesa_parcelas := some 12 }, store := ⟨[], [], 0⟩ }) ∧
    ((convStep .DESPESA_VALOR_PARCELA (.text "100.00") C6env
        { C6draft with despesa_parcelas := some 12 } ⟨[], [], 0⟩).state = .idle ∧
     (convStep .DESPESA_VALOR_PARCELA (.text "100.00") C6env
        { C6draft with despesa_parcelas := some 12 } ⟨[], [], 0⟩).ud = {} ∧
     (convStep .DESPESA_VALOR_PARCELA (.text "100.00") C6env
        { C6draft with despesa_parcelas := some 12 } ⟨[], [], 0⟩).reported = some true ∧
     (convStep .DESPESA_VALOR_PARCELA (.text "100.00") C6env
        { C6draft with despesa_parcelas := some 12 } ⟨[], [], 0⟩).store.transactions.map
        (fun t => (t.is_installment, t.installment_details)) =
      [(true, some { total_installments := 12, current_installment := 1,
                     installment_value := .finite (mkRat 100 1) })]) ∧
    (∀ (inp : BotInput) (env : Env) (ud : UserData) (st : Store),
      (convStep .RECEITA_CATEGORIA inp env ud st).state ∈
        ([.RECEITA_CATEGORIA, .RECEITA_DESCRICAO, .RECEITA_VALOR, .RECEITA_DATA,
          .idle] : List ConvState) ∧
      (convStep .RECEITA_DESCRICAO inp env ud st).state ∈
        ([.RECEITA_CATEGORIA, .RECEITA_DESCRICAO, .RECEITA_VALOR, .RECEITA_DATA,
          .idle] : List ConvState) ∧
      (convStep .RECEITA_VALOR inp env ud st).state ∈
        ([.RECEITA_CATEGORIA, .RECEITA_DESCRICAO, .RECEITA_VALOR, .RECEITA_DATA,
          .idle] : List ConvState) ∧
      (convStep .RECEITA_DATA inp env ud st).state ∈
        ([.RECEITA_CATEGORIA, .RECEITA_DESCRICAO, .RECEITA_VALOR, .RECEITA_DATA,
          .idle] : List ConvState)) := by
  refine ⟨by decide, by decide, by decide, by decide, by decide, by decide, by decide,
    fun inp env ud st => ?_⟩
  refine ⟨?_, ?_, ?_, ?_⟩ <;> cases inp <;>
    simp [convStep, cancel, receita_categoria, receita_descricao, receita_valor,
      receita_data, create_transaction] <;> split <;> simp

/-- C9: when the month's transactions of the user are exactly one income
of 1000.00 and one expense of 400.00, the monthly summary is
{income 1000.00, expense 400.00, net 600.00, count 2}; and any
transaction failing the month query (other owner or created outside the
month window) changes none of the four aggregates. -/
theorem C9_monthly_summary_aggregates (st : Store) (uid : Int) (y : Int) (m : Nat)
    (t1 t2 : StoredTransaction)
    (hf : monthFilter st uid y m = [t1, t2])
    (h1ty : t1.type = "receita") (h1v : t1.value = .finite (mkRat 1000 1))
    (h2ty : t2.type = "despesa") (h2v : t2.value = .finite (mkRat 400 1)) :
    get_monthly_summary st uid y m =
      { receitas := .finite (mkRat 1000 1), despesas := .finite (mkRat 400 1),
        saldo := .finite (mkRat 600 1), total_transacoes := 2 } ∧
    ∀ t : StoredTransaction, inMonthQuery uid y m t = false →
      get_monthly_summary { st with transactions := t :: st.transactions } uid y m =
        get_monthly_summary st uid y m := by
  constructor
  · unfold get_monthly_summary
    rw [hf]
    have hne : t2.type ≠ "receita" := by rw [h2ty]; decide
    have hne2 : t1.type ≠ "despesa" := by rw [h1ty]; decide
    simp [h1ty, h2ty, hne, hne2, h1v, h2v, pySum, PyFloat.add, PyFloat.sub, PyFloat.neg,
      ratAdd]
  · intro t ht
    unfold get_monthly_summary monthFilter
    simp [List.filter_cons, ht]

/-- The user's May-2024 income of 1000.00 (for the C9 witness). -/
def C9r1 : StoredTransaction :=
  { _id := 0, user_id := 1, type := "receita", category := "Salário",
    description := "salário", value := .finite (mkRat 1000 1),
    is_installment := false, installment_details := none, due_date := none,
    payment_date := none, status := "aberto", created_at := ⟨19848, 3600⟩,
    updated_at := ⟨19848, 3600⟩ }

/-- The user's May-2024 expense of 400.00 (for the C9 witness). -/
def C9r2 : StoredTransaction :=
  { _id := 1, user_id := 1, type := "despesa", category := "Mercado",
    description := "compras", value := .finite (mkRat 400 1),
    is_installment := false, installment_details := none, due_date := none,
    payment_date := none, status := "aberto", created_at := ⟨19850, 7200⟩,
    updated_at := ⟨19850, 7200⟩ }

/-- A different owner's May-2024 transaction (for the C9 witness). -/
def C9other : StoredTransaction :=
  { _id := 2, user_id := 2, type := "despesa", category := "Outro",
    description := "de outro usuário", value := .finite (mkRat 50 1),
    is_installment := false, installment_details := none, due_date := none,
    payment_date := none, status := "aberto", created_at := ⟨19850, 7200⟩,
    updated_at := ⟨19850, 7200⟩ }

/-- The user's June-2024 transaction, outside the target month (for the
C9 witness). -/
def C9june : StoredTransaction :=
  { _id := 3, user_id := 1, type := "despesa", category := "Junho",
    description := "fora do mês", value := .finite (mkRat 70 1),
    is_installment := false, installment_details := none, due_date := none,
    payment_date := none, status := "aberto", created_at := ⟨19880, 0⟩,
    updated_at := ⟨19880, 0⟩ }

/-- The C9 witness store. -/
def C9store : Store := ⟨[], [C9r1, C9r2, C9other, C9june], 4⟩

/-- Witness for C9 at a concrete store holding the two May-2024
transactions plus one of a different owner and one created in June
(both of which are filtered out of the month query). -/
theorem C9_monthly_summary_aggregates_witness :
    monthFilter C9store 1 2024 5 = [C9r1, C9r2] ∧
    get_monthly_summary C9store 1 2024 5 =
      { receitas := .finite (mkRat 1000 1), despesas := .finite (mkRat 400 1),
        saldo := .finite (mkRat 600 1), total_transacoes := 2 } :=
  ⟨by decide,
   (C9_monthly_summary_aggregates C9store 1 2024 5 C9r1 C9r2 (by decide) (by decide)
     (by decide) (by decide) (by decide)).1⟩

/-- A registered user with a reachable chat (for the C3 evaluation). -/
def C3user : StoredUser := { user_id := 1, username := some "ana", chat_id := some 100,
                             created_at := ⟨19840, 0⟩ }

/-- The date 2024-05-10, the "today" of the C3 evaluation. -/
def C3today : Date := mkDate 2024 5 10

/-- The C3 store: one open expense of user 1 due exactly today, inserted
through `create_transaction` (which stores the due date as a midnight
`datetime`). -/
def C3store : Store :=
  (create_transaction ⟨[C3user], [], 0⟩ 1 "despesa" "Aluguel" "aluguel de maio"
    (.finite (mkRat 1200 1)) (some C3today) false none ⟨19853, 21600⟩).1

/-- C3 evaluated at the failing input: user 1 owns one open expense that
is due exactly today, yet the digest sent to them lists *no* due-today
expense (and reports no overflow): the code compares the stored midnight
`datetime` due date against the plain `date` today with `==`, which is
always `False` in Python, so the due-today section can never list
anything.  The count/total aggregates of the digest are correct. -/
theorem C3_daily_summary_eval :
    (C3store.transactions.map fun t => (t.user_id, t.type, t.status, t.due_date)) =
      [(1, "despesa", "aberto", some (DateTime.combine C3today))] ∧
    send_daily_summary C3store C3today =
      [{ chat_id := 100, receitas_abertas := 0, valor_receitas := .finite 0,
         despesas_abertas := 1, valor_despesas := .finite (mkRat 1200 1),
         vencendo_hoje_shown := [], vencendo_hoje_overflow := 0 }] := by
  decide

/-- A registered user with a reachable chat (for the C4 evaluation). -/
def C4user : StoredUser := { user_id := 1, username := some "ana", chat_id := some 100,
                             created_at := ⟨19840, 0⟩ }

/-- The date 2024-05-10, the "today" of the C4 evaluation. -/
def C4today : Date := mkDate 2024 5 10

/-- The C4 store: one open expense of user 1 due exactly today. -/
def C4store : Store :=
  (create_transaction ⟨[C4user], [], 0⟩ 1 "despesa" "Internet" "fatura"
    (.finite (mkRat 99 1)) (some C4today) false none ⟨19853, 21600⟩).1

/-- A store whose only open expense is due today + 4 days. -/
def C4storeFar : Store :=
  (create_transaction ⟨[C4user], [], 0⟩ 1 "despesa" "Internet" "fatura"
    (.finite (mkRat 99 1)) (some (C4today.addDays 4)) false none ⟨19853, 21600⟩).1

/-- C4 evaluated at the failing input: the classification branch
structure itself maps days-until-due to overdue / due-today /
due-tomorrow / upcoming exactly as claimed, and a due date of today + 4
is indeed excluded from the days_ahead = 3 batch; but on the selected
batch the job never reaches the classification: computing
`days_until_due` subtracts the plain `date` today from the stored
midnight `datetime` due date, which raises `TypeError`, so the run
aborts having sent nothing — even for the expense due today. -/
theorem C4_due_check_eval :
    classify_days (-1) = .overdue 1 ∧ classify_days 0 = .dueToday ∧
    classify_days 1 = .dueTomorrow ∧ classify_days 3 = .upcoming 3 ∧
    (get_due_transactions C4store C4today 3).length = 1 ∧
    check_due_transactions C4store C4today = ([], true) ∧
    get_due_transactions C4storeFar C4today 3 = [] := by
  decide

end FinBot
